/-
Verification of the Helwa-Platform chart/dashboard data pipeline.

Shallow embedding of:
  * volumeprofiletemplate/chart_generator.py  (zone-alert chart generation)
  * zaincandle/lightweight_dashboard_generator.py  (multi-timeframe dashboards)

Timestamps are modelled as integer epoch seconds (Python datetimes and SQL
timestamps), prices and volumes as rationals (SQL numerics / Python floats,
whose arithmetic on the values appearing here is exact).  SQL queries are
modelled as list transformations over the rows of the tables they touch;
database/driver failures are modelled by explicit flags or `Except` values
where the Python code catches exceptions.
-/
import Mathlib

set_option maxHeartbeats 1000000

namespace Helwa

/-! ## Zone penetration (chart_generator._generate_html_chart, lines 225-230)

Python:
    zone_range = zone_top - zone_bottom
    if zone_type == 'demand':
        penetration_pct = max(0, (zone_bottom - current_price) / zone_range * 100)
    else:  # supply
        penetration_pct = max(0, (current_price - zone_top) / zone_range * 100)

Python raises `ZeroDivisionError` when `zone_range` is zero; that failure is
modelled as `none`. -/

/-- Zone penetration percentage as computed by `_generate_html_chart`.
`none` models the `ZeroDivisionError` raised when `zone_top = zone_bottom`. -/
def penetrationPct (zoneType : String) (zoneTop zoneBottom currentPrice : ℚ) : Option ℚ :=
  let zoneRange := zoneTop - zoneBottom
  if zoneRange = 0 then none
  else if zoneType = "demand" then
    some (max 0 ((zoneBottom - currentPrice) / zoneRange * 100))
  else
    some (max 0 ((currentPrice - zoneTop) / zoneRange * 100))

/-! ## Rows and candles of the dashboard generator -/

/-- One row of `<schema>.minute_aggregates` (the base minute table). -/
structure MinuteRow where
  symbolId : Int
  ts : Int
  open_ : ℚ
  high : ℚ
  low : ℚ
  close : ℚ
  volume : ℚ
deriving DecidableEq, Repr

/-- One row of a `candles_<N>` materialized view. -/
structure MatviewRow where
  symbolId : Int
  bucket : Int
  open_ : ℚ
  high : ℚ
  low : ℚ
  close : ℚ
  volume : ℚ
deriving DecidableEq, Repr

/-- A candle dictionary as built by `_fetch_candles`
(`time` is `EXTRACT(EPOCH FROM ...)::bigint`). -/
structure Candle where
  time : Int
  open_ : ℚ
  high : ℚ
  low : ℚ
  close : ℚ
  volume : ℚ
deriving DecidableEq, Repr

/-- `EXTRACT(MINUTE FROM timestamp)` for an epoch-seconds timestamp. -/
def minuteOfHour (ts : Int) : Int := ts / 60 % 60

/-- `time_bucket('<tf> minutes', timestamp)` for an epoch-seconds timestamp:
the start of the enclosing `tf`-minute bucket. -/
def timeBucket (tfMinutes : Nat) (ts : Int) : Int :=
  ts / (tfMinutes * 60) * (tfMinutes * 60)

/-- The hardcoded `matview_map` of `_fetch_candles`. -/
def matviewMap : Nat → Option String
  | 2 => some "candles_2m"
  | 3 => some "candles_3m"
  | 5 => some "candles_5m"
  | 6 => some "candles_6m"
  | 10 => some "candles_10m"
  | 13 => some "candles_13m"
  | 15 => some "candles_15m"
  | 26 => some "candles_26m"
  | 30 => some "candles_30m"
  | 39 => some "candles_39m"
  | 65 => some "candles_65m"
  | 78 => some "candles_78m"
  | 130 => some "candles_130m"
  | 195 => some "candles_195m"
  | 390 => some "candles_390m"
  | 1950 => some "candles_5d"
  | 8580 => some "candles_22d"
  | 25350 => some "candles_65d"
  | 60 => some "candles_1h"
  | 120 => some "candles_2h"
  | 240 => some "candles_4h"
  | 480 => some "candles_8h"
  | 1440 => some "candles_1d"
  | 10080 => some "candles_7d"
  | 44640 => some "candles_31d"
  | 133920 => some "candles_93d"
  | _ => none

/-- The database state seen by `_fetch_candles`.  `matviews name = none` models
a materialized view that is absent from `pg_matviews` (or whose existence
check failed, which the code treats identically: `use_matview = False`). -/
structure StocksDb where
  matviews : String → Option (List MatviewRow)
  minuteRows : List MinuteRow

/-- The `use_matview` condition of `_fetch_candles`: the timeframe has a view
name in `matview_map` and that view exists in `pg_matviews`. -/
def matviewAvailable (db : StocksDb) (tf : Nat) : Bool :=
  match matviewMap tf with
  | some nm => (db.matviews nm).isSome
  | none => false

/-- Ascending-timestamp order on minute rows (`ORDER BY timestamp ASC`). -/
def tsLe (a b : MinuteRow) : Prop := a.ts ≤ b.ts

instance : DecidableRel tsLe := fun a b => inferInstanceAs (Decidable (a.ts ≤ b.ts))

instance : IsTotal MinuteRow tsLe := ⟨fun a b => Int.le_total a.ts b.ts⟩

instance : IsTrans MinuteRow tsLe := ⟨fun _ _ _ => Int.le_trans⟩

/-- Descending-timestamp order on minute rows (`ORDER BY timestamp DESC`). -/
def tsGe (a b : MinuteRow) : Prop := b.ts ≤ a.ts

instance : DecidableRel tsGe := fun a b => inferInstanceAs (Decidable (b.ts ≤ a.ts))

instance : IsTotal MinuteRow tsGe := ⟨fun a b => Int.le_total b.ts a.ts⟩

instance : IsTrans MinuteRow tsGe := ⟨fun _ _ _ h h2 => Int.le_trans h2 h⟩

/-- Ascending-bucket order on materialized-view rows (`ORDER BY bucket ASC`). -/
def bucketLe (a b : MatviewRow) : Prop := a.bucket ≤ b.bucket

instance : DecidableRel bucketLe := fun a b => inferInstanceAs (Decidable (a.bucket ≤ b.bucket))

instance : IsTotal MatviewRow bucketLe := ⟨fun a b => Int.le_total a.bucket b.bucket⟩

instance : IsTrans MatviewRow bucketLe := ⟨fun _ _ _ => Int.le_trans⟩

/-- The `WHERE symbol_id = %s AND timestamp >= %s AND timestamp <= %s` filter. -/
def inRangeB (sid : Int) (s e : Int) (r : MinuteRow) : Bool :=
  decide (r.symbolId = sid) && decide (s ≤ r.ts) && decide (r.ts ≤ e)

/-- A minute row returned unchanged as a candle (the stride-sampling branch
selects raw rows, it does not aggregate). -/
def candleOfMinuteRow (r : MinuteRow) : Candle :=
  ⟨r.ts, r.open_, r.high, r.low, r.close, r.volume⟩

/-- The `timeframe_minutes <= 15` fallback of `_fetch_candles`: keep the raw
minute rows whose minute-of-hour is divisible by the timeframe. -/
def strideQuery (rows : List MinuteRow) (sid : Int) (s e : Int) (tf : Nat) : List Candle :=
  (List.insertionSort tsLe
      (rows.filter (fun r => inRangeB sid s e r && decide (minuteOfHour r.ts % (tf : Int) = 0)))).map
    candleOfMinuteRow

/-- One aggregated bucket of the `timeframe_minutes > 15` fallback:
`open` is `(array_agg(open ORDER BY timestamp))[1]`,
`close` is `(array_agg(close ORDER BY timestamp DESC))[1]`,
`high`/`low` are `MAX(high)`/`MIN(low)` and `volume` is `SUM(volume)`. -/
def bucketAgg (b : Int) (grp : List MinuteRow) : Candle :=
  { time := b
    open_ := (((List.insertionSort tsLe grp).head?).map MinuteRow.open_).getD 0
    high := ((grp.map MinuteRow.high).maximum).unbot' 0
    low := ((grp.map MinuteRow.low).minimum).untop' 0
    close := (((List.insertionSort tsGe grp).head?).map MinuteRow.close).getD 0
    volume := (grp.map MinuteRow.volume).sum }

/-- The distinct `time_bucket` values of the filtered rows, ascending
(`GROUP BY time_bucket(...) ORDER BY time ASC`). -/
def bucketKeys (rows : List MinuteRow) (tf : Nat) : List Int :=
  List.insertionSort (· ≤ ·) ((rows.map (fun r => timeBucket tf r.ts)).dedup)

/-- The rows of one `time_bucket` group: the filtered rows whose bucket is `b`. -/
def bucketGroup (rows : List MinuteRow) (sid : Int) (s e : Int) (tf : Nat) (b : Int) :
    List MinuteRow :=
  (rows.filter (inRangeB sid s e)).filter (fun r => decide (timeBucket tf r.ts = b))

/-- The `timeframe_minutes > 15` fallback of `_fetch_candles`: first/max/min/last/sum
aggregation per `time_bucket`. -/
def bucketQuery (rows : List MinuteRow) (sid : Int) (s e : Int) (tf : Nat) : List Candle :=
  (bucketKeys (rows.filter (inRangeB sid s e)) tf).map
    (fun b => bucketAgg b (bucketGroup rows sid s e tf b))

/-- The fallback branch of `_fetch_candles` (no usable materialized view). -/
def fallbackQuery (rows : List MinuteRow) (sid : Int) (s e : Int) (tf : Nat) : List Candle :=
  if tf ≤ 15 then strideQuery rows sid s e tf else bucketQuery rows sid s e tf

/-- The materialized-view query of `_fetch_candles`
(`WHERE symbol_id ... AND bucket BETWEEN ... ORDER BY bucket ASC`). -/
def matviewQuery (mrows : List MatviewRow) (sid : Int) (s e : Int) : List Candle :=
  (List.insertionSort bucketLe
      (mrows.filter
        (fun r => decide (r.symbolId = sid) && decide (s ≤ r.bucket) && decide (r.bucket ≤ e)))).map
    (fun r => ⟨r.bucket, r.open_, r.high, r.low, r.close, r.volume⟩)

/-- `LightweightDashboardGenerator._fetch_candles`: query the per-timeframe
materialized view when it exists, otherwise fall back to the minute table
(stride sampling for `tf ≤ 15`, bucketed aggregation for `tf > 15`). -/
def fetchCandles (db : StocksDb) (sid : Int) (s e : Int) (tf : Nat) : List Candle :=
  match matviewMap tf with
  | some nm =>
    match db.matviews nm with
    | some mrows => matviewQuery mrows sid s e
    | none => fallbackQuery db.minuteRows sid s e tf
  | none => fallbackQuery db.minuteRows sid s e tf

/-! ## Start-time policies

`chart_generator._fetch_chart_data` (lines 137-146) pads or clamps the start;
`lightweight_dashboard_generator._fetch_dashboard_data` (lines 217-226)
derives the start from a per-timeframe lookback with no padding. -/

/-- Calendar-day index of an epoch timestamp (models `datetime.date()`;
rational-valued timestamps so that the 10% padding stays exact). -/
def dayIndex (t : ℚ) : ℤ := ⌊t / 86400⌋

/-- `start_time.replace(hour=9, minute=30, second=0, microsecond=0)`:
09:30:00 is 34200 seconds after midnight. -/
def marketOpenClamp (t : ℚ) : ℚ := dayIndex t * 86400 + 34200

/-- The padded start of `_fetch_chart_data`: market-open clamp for a
single-day query, otherwise `start - 0.1 * (end - start)`. -/
def chartPaddedStart (startTime endTime : ℚ) : ℚ :=
  if dayIndex startTime = dayIndex endTime then marketOpenClamp startTime
  else startTime - (endTime - startTime) * (1 / 10)

/-- The per-timeframe `lookback_days_map` of the dashboard generator
(stocks branch). -/
def lookbackDaysMap : String → Option Nat
  | "2min" => some 5
  | "3min" => some 7
  | "5min" => some 14
  | "6min" => some 14
  | "10min" => some 30
  | "13min" => some 30
  | "15min" => some 60
  | "26min" => some 90
  | "30min" => some 90
  | "39min" => some 180
  | "65min" => some 180
  | "78min" => some 180
  | "130min" => some 365
  | "195min" => some 365
  | "390min" => some 730
  | "5day" => some 730
  | "22day" => some 1095
  | "65day" => some 1825
  | _ => none

/-- `start_date = end_date - timedelta(days=lookback_days_map.get(tf, lookback_days))`
as computed inside `_fetch_dashboard_data`; this value is passed to
`_fetch_candles` unchanged. -/
def dashboardStartDate (endDate : Int) (lookbackDefault : Nat) (tfName : String) : Int :=
  endDate - ((lookbackDaysMap tfName).getD lookbackDefault : Int) * 86400

/-! ## Zones (`_fetch_zones`) -/

/-- One row of `<schema>.zones`.  `zoneScore` is nullable
(`COALESCE(zone_score, 0.0)` in the query). -/
structure ZoneRow where
  symbolId : Int
  timeframeId : Int
  zoneId : Nat
  zoneType : String
  bottomPrice : ℚ
  topPrice : ℚ
  startTime : Int
  endTime : Int
  zoneScore : Option ℚ
  isBroken : Bool
deriving DecidableEq, Repr

/-- The `COALESCE(zone_score, 0.0) as zone_score` output column. -/
def coalescedScore (r : ZoneRow) : ℚ := r.zoneScore.getD 0

/-- `ORDER BY zone_score DESC, start_time DESC` as a relation on rows. -/
def zoneOrder (a b : ZoneRow) : Prop :=
  coalescedScore b < coalescedScore a ∨
    (coalescedScore a = coalescedScore b ∧ b.startTime ≤ a.startTime)

instance : DecidableRel zoneOrder := fun a b =>
  inferInstanceAs (Decidable (coalescedScore b < coalescedScore a ∨
    (coalescedScore a = coalescedScore b ∧ b.startTime ≤ a.startTime)))

instance : IsTotal ZoneRow zoneOrder := by
  constructor
  intro a b
  rcases lt_trichotomy (coalescedScore a) (coalescedScore b) with h | h | h
  · exact Or.inr (Or.inl h)
  · rcases Int.le_total b.startTime a.startTime with h2 | h2
    · exact Or.inl (Or.inr ⟨h, h2⟩)
    · exact Or.inr (Or.inr ⟨h.symm, h2⟩)
  · exact Or.inl (Or.inl h)

instance : IsTrans ZoneRow zoneOrder := by
  constructor
  intro a b c hab hbc
  rcases hab with h1 | ⟨h1, h1t⟩
  · rcases hbc with h2 | ⟨h2, _⟩
    · exact Or.inl (h2.trans h1)
    · exact Or.inl (by rw [← h2]; exact h1)
  · rcases hbc with h2 | ⟨h2, h2t⟩
    · exact Or.inl (by rw [h1]; exact h2)
    · exact Or.inr ⟨h1.trans h2, h2t.trans h1t⟩

/-- A zone dictionary as built by `_fetch_zones` (`exit_price`/`exit_time`
are not tracked in the database and are always `None`). -/
structure Zone where
  zoneId : Nat
  zoneType : String
  bottomPrice : ℚ
  topPrice : ℚ
  startTime : Int
  endTime : Int
  zoneScore : ℚ
  isBroken : Bool
  exitPrice : Option ℚ
  exitTime : Option Int
  timeframe : String
deriving DecidableEq, Repr

/-- Row-to-dictionary conversion of `_fetch_zones`. -/
def zoneOfRow (timeframe : String) (r : ZoneRow) : Zone :=
  ⟨r.zoneId, r.zoneType, r.bottomPrice, r.topPrice, r.startTime, r.endTime,
    coalescedScore r, r.isBroken, none, none, timeframe⟩

/-- The zones SQL query: filter by symbol and timeframe,
`ORDER BY zone_score DESC, start_time DESC LIMIT 30`. -/
def zonesQuery (rows : List ZoneRow) (sid tfId : Int) : List ZoneRow :=
  (List.insertionSort zoneOrder
      (rows.filter (fun r => decide (r.symbolId = sid) && decide (r.timeframeId = tfId)))).take 30

/-- `_fetch_zones`: resolve the timeframe label in `shared.timeframes`
(unknown label: warn and return the empty list), then run the ranked,
capped query.  The second component records the log levels emitted. -/
def fetchZones (rows : List ZoneRow) (tfLookup : String → Option Int) (sid : Int)
    (timeframe : String) : List Zone × List String :=
  match tfLookup timeframe with
  | none => ([], ["warning"])
  | some tfId => ((zonesQuery rows sid tfId).map (zoneOfRow timeframe), ["info"])

/-! ## Volume profile (`_fetch_volume_profile`) -/

/-- One row of `<schema>.volume_profile`.  `periodStart` models the
`period_start` timestamp (stocks) / `date` (crypto) column. -/
structure VPRow where
  symbolId : Int
  periodStart : Int
  priceLevel : ℚ
  volume : ℚ
  nodeType : String
deriving DecidableEq, Repr

/-- A volume-profile node dictionary as built by `_fetch_volume_profile`. -/
structure VPNode where
  price : ℚ
  dollarVolume : ℚ
  isHvn : Bool
  isLvn : Bool
deriving DecidableEq, Repr

/-- Calendar date of an epoch timestamp (`datetime.date()` for the crypto
branch, whose `date` column stores calendar dates). -/
def dateOf (t : Int) : Int := t / 86400

/-- The schema-dependent `WHERE` clause of the volume-profile query: stocks
filter on the `period_start` timestamp, crypto on the calendar `date`. -/
def vpFilter (schema : String) (sid : Int) (startDate endDate : Int) (r : VPRow) : Bool :=
  if schema = "stocks" then
    decide (r.symbolId = sid) && decide (startDate ≤ r.periodStart) &&
      decide (r.periodStart ≤ endDate)
  else
    decide (r.symbolId = sid) && decide (dateOf startDate ≤ dateOf r.periodStart) &&
      decide (dateOf r.periodStart ≤ dateOf endDate)

/-- `GROUP BY price_level` with `SUM(volume)` and
`BOOL_OR(node_type = 'HVN') / BOOL_OR(node_type = 'LVN')`. -/
def vpAggregate (rows : List VPRow) : List VPNode :=
  ((rows.map VPRow.priceLevel).dedup).map
    (fun p =>
      let g := rows.filter (fun r => decide (r.priceLevel = p))
      ⟨p, (g.map VPRow.volume).sum,
        g.any (fun r => decide (r.nodeType = "HVN")),
        g.any (fun r => decide (r.nodeType = "LVN"))⟩)

/-- `ORDER BY total_volume DESC` as a relation on nodes. -/
def vpOrder (a b : VPNode) : Prop := b.dollarVolume ≤ a.dollarVolume

instance : DecidableRel vpOrder := fun a b =>
  inferInstanceAs (Decidable (b.dollarVolume ≤ a.dollarVolume))

instance : IsTotal VPNode vpOrder := ⟨fun a b => le_total b.dollarVolume a.dollarVolume⟩

instance : IsTrans VPNode vpOrder := ⟨fun _ _ _ h h2 => le_trans h2 h⟩

/-- `_fetch_volume_profile`: group by price level, sum volumes,
`ORDER BY total_volume DESC LIMIT 50`. -/
def fetchVolumeProfile (rows : List VPRow) (schema : String) (sid : Int) (s e : Int) :
    List VPNode :=
  (List.insertionSort vpOrder (vpAggregate (rows.filter (vpFilter schema sid s e)))).take 50

/-! ## Per-timeframe dashboard assembly (`_fetch_dashboard_data`) -/

/-- One timeframe bucket of the dashboard payload. -/
structure TfData where
  candles : List Candle
  zones : List Zone
  volumeProfile : List VPNode
deriving DecidableEq

/-- The empty placeholder substituted when a timeframe's fetch throws. -/
def emptyTfData : TfData := ⟨[], [], []⟩

/-- The stocks timeframe labels, in dictionary insertion order. -/
def stockTimeframeNames : List String :=
  ["2min", "3min", "5min", "6min", "10min", "13min", "15min", "26min", "30min",
   "39min", "65min", "78min", "130min", "195min", "390min", "5day", "22day", "65day"]

/-- Whether an `Except` value is an error (a raised exception). -/
def isErr (x : Except Unit TfData) : Bool :=
  match x with
  | Except.error _ => true
  | Except.ok _ => false

/-- The per-timeframe loop of `_fetch_dashboard_data`: each timeframe is
fetched independently and an exception (`Except.error`) is caught and
replaced by the empty placeholder, so the loop always completes. -/
def buildTimeframes (tfs : List String) (fetchTf : String → Except Unit TfData) :
    List (String × TfData) :=
  tfs.map (fun tf => (tf,
    match fetchTf tf with
    | Except.ok d => d
    | Except.error _ => emptyTfData))

/-- `_fetch_dashboard_data`: `none` models the `return None` taken when the
symbol is unknown; otherwise all configured timeframes are assembled. -/
def fetchDashboardData (symbolId? : Option Int) (tfs : List String)
    (fetchTf : String → Except Unit TfData) : Option (List (String × TfData)) :=
  match symbolId? with
  | none => none
  | some _ => some (buildTimeframes tfs fetchTf)

/-! ## Connection/cursor ledger of `_fetch_dashboard_data`

The function acquires one connection and one cursor up front.  On a
per-timeframe exception it rolls back, closes the old cursor and replaces
the connection with a fresh one — without closing the old connection.  On
the not-found path and on normal completion it closes the current cursor
and connection.  The ledger below records exactly those acquire/close
events, identifying each connection and cursor by a fresh number. -/

inductive DbEvent where
  | acquireConn (id : Nat)
  | closeConn (id : Nat)
  | acquireCursor (id : Nat)
  | closeCursor (id : Nat)
deriving DecidableEq, Repr

structure LoopState where
  conn : Nat
  cursor : Nat
  next : Nat
  events : List DbEvent
deriving Repr

/-- One iteration of the timeframe loop: on failure, close the old cursor
and acquire a replacement connection and cursor (the old connection is only
rolled back, never closed). -/
def tfStep (fails : String → Bool) (st : LoopState) (tf : String) : LoopState :=
  if fails tf then
    { conn := st.next
      cursor := st.next + 1
      next := st.next + 2
      events := st.events ++
        [DbEvent.closeCursor st.cursor, DbEvent.acquireConn st.next,
         DbEvent.acquireCursor (st.next + 1)] }
  else st

/-- The complete acquire/close event trace of one `_fetch_dashboard_data`
call: `symbolFound = false` takes the early-return path; otherwise the loop
runs over `tfs` and the final cursor and connection are closed. -/
def fetchDashboardEvents (symbolFound : Bool) (tfs : List String)
    (fails : String → Bool) : List DbEvent :=
  let st0 : LoopState :=
    { conn := 0, cursor := 1, next := 2
      events := [DbEvent.acquireConn 0, DbEvent.acquireCursor 1] }
  if symbolFound then
    let st := tfs.foldl (tfStep fails) st0
    st.events ++ [DbEvent.closeCursor st.cursor, DbEvent.closeConn st.conn]
  else
    st0.events ++ [DbEvent.closeCursor st0.cursor, DbEvent.closeConn st0.conn]

/-- Identifiers of the connections acquired in a trace. -/
def acquiredConns (evs : List DbEvent) : List Nat :=
  evs.filterMap (fun ev =>
    match ev with
    | DbEvent.acquireConn i => some i
    | _ => none)

/-- Identifiers of the connections closed in a trace. -/
def closedConns (evs : List DbEvent) : List Nat :=
  evs.filterMap (fun ev =>
    match ev with
    | DbEvent.closeConn i => some i
    | _ => none)

/-! ## Zone-alert chart generation (`chart_generator`) -/

/-- One row of a `stocks.candles_<N>m` view as read by `_fetch_chart_data`
(prices become Python floats, volume becomes `int`). -/
structure ViewRow where
  symbolId : Int
  bucket : Int
  open_ : ℚ
  high : ℚ
  low : ℚ
  close : ℚ
  volume : Int
deriving DecidableEq, Repr

/-- A candle dictionary as built by `_fetch_chart_data`. -/
structure ChartCandle where
  timestamp : Int
  open_ : ℚ
  high : ℚ
  low : ℚ
  close : ℚ
  volume : Int
deriving DecidableEq, Repr

/-- Ascending-bucket order on chart view rows (`ORDER BY bucket ASC`). -/
def vrowLe (a b : ViewRow) : Prop := a.bucket ≤ b.bucket

instance : DecidableRel vrowLe := fun a b => inferInstanceAs (Decidable (a.bucket ≤ b.bucket))

instance : IsTotal ViewRow vrowLe := ⟨fun a b => Int.le_total a.bucket b.bucket⟩

instance : IsTrans ViewRow vrowLe := ⟨fun _ _ _ => Int.le_trans⟩

/-- The database state seen by `_fetch_chart_data`: the rows of each view,
and whether the query raises (the `except` branch returns `[]`). -/
structure ChartDb where
  views : String → List ViewRow
  queryFails : Bool

/-- `view_name = f"stocks.candles_(chart_timeframe_minutes)m"`. -/
def chartViewName (tf : Nat) : String := "stocks.candles_" ++ toString tf ++ "m"

/-- `_fetch_chart_data`: unknown symbol warns and returns the empty list;
otherwise the view is queried between the padded start and the end time,
with all query exceptions caught (empty list).  The second component
records the log levels emitted after the symbol lookup. -/
def fetchChartData (db : ChartDb) (symbolId? : Option Int) (tf : Nat)
    (startTime endTime : ℚ) : List ChartCandle × List String :=
  match symbolId? with
  | none => ([], ["warning"])
  | some sid =>
    let ps := chartPaddedStart startTime endTime
    if db.queryFails then ([], ["error"])
    else
      ((List.insertionSort vrowLe
          ((db.views (chartViewName tf)).filter
            (fun r => decide (r.symbolId = sid) && decide (ps ≤ (r.bucket : ℚ)) &&
              decide ((r.bucket : ℚ) ≤ endTime)))).map
        (fun r => ⟨r.bucket, r.open_, r.high, r.low, r.close, r.volume⟩), ["info"])

/-! ## PNG thumbnail (`_generate_png_thumbnail`) -/

/-- The filesystem/logging effects performed by `_generate_png_thumbnail`. -/
inductive FsEffect where
  | readFile (path : String)
  | writeFile (path : String)
  | logInfo
  | logError
deriving DecidableEq, Repr

/-- `png_path = html_path.replace('.html', '.png')`, modelled for the chart
paths this program produces (which end in `.html` and contain the pattern
exactly once): drop the 5-byte `.html` suffix and append `.png`. -/
def pngPathOf (htmlPath : String) : String := htmlPath.dropRight 5 ++ ".png"

/-- `_generate_png_thumbnail`: when the kaleido import (and the HTML read)
succeed, the function reads the HTML, logs success and returns the derived
png path — it performs no write of any file.  When the import fails the
exception is caught, the failure is logged and `None` is returned. -/
def generatePngThumbnail (kaleidoAvailable : Bool) (htmlPath : String) :
    Option String × List FsEffect :=
  let pngPath := pngPathOf htmlPath
  if kaleidoAvailable then
    (some pngPath, [FsEffect.readFile htmlPath, FsEffect.logInfo])
  else
    (none, [FsEffect.logError, FsEffect.logInfo])

/-- `generate_zone_alert_chart`: fetch candles; with no candle data warn and
return `(None, None)` (no HTML, no PNG); otherwise write the HTML chart and
attempt the best-effort PNG thumbnail. -/
def generateZoneAlertChart (db : ChartDb) (kaleidoAvailable : Bool)
    (symbolId? : Option Int) (symbol zoneType : String)
    (zoneTimeframeMinutes chartTf : Nat) (zoneFormedAt currentTimestamp : ℚ)
    (nowStr : String) : Option String × Option String :=
  let fd := fetchChartData db symbolId? chartTf zoneFormedAt currentTimestamp
  if fd.1 = [] then (none, none)
  else
    let htmlPath := symbol ++ "_" ++ zoneType ++ "_" ++
      toString zoneTimeframeMinutes ++ "min_" ++ nowStr ++ ".html"
    (some htmlPath, (generatePngThumbnail kaleidoAvailable htmlPath).1)

/-! ## Shared helper lemmas -/

/-- The head of an `insertionSort` of a nonempty list is a member that is
below every member of the list (under a total, transitive relation). -/
theorem insertionSort_head_min {α : Type} (r : α → α → Prop) [DecidableRel r]
    [IsTotal α r] [IsTrans α r] (l : List α) (hne : l ≠ []) :
    ∃ m ∈ l, (∀ x ∈ l, r m x) ∧ (List.insertionSort r l).head? = some m := by
  cases hs : List.insertionSort r l with
  | nil =>
    exfalso
    have := List.length_insertionSort r l
    rw [hs] at this
    exact hne (List.length_eq_zero.mp this.symm)
  | cons m rest =>
    have hmem : m ∈ List.insertionSort r l := by rw [hs]; exact List.mem_cons_self m rest
    have hsorted := List.sorted_insertionSort r l
    rw [hs] at hsorted
    refine ⟨m, (List.mem_insertionSort r).mp hmem, ?_, rfl⟩
    intro x hx
    have hx2 : x ∈ List.insertionSort r l := (List.mem_insertionSort r).mpr hx
    rw [hs] at hx2
    rcases List.mem_cons.mp hx2 with h | h
    · subst h
      rcases IsTotal.total (r := r) x x with h2 | h2 <;> exact h2
    · exact List.rel_of_sorted_cons hsorted x h

/-- Taking a prefix preserves sortedness. -/
theorem sorted_take {α : Type} {r : α → α → Prop} {l : List α}
    (h : List.Sorted r l) (n : Nat) : List.Sorted r (l.take n) :=
  List.Pairwise.sublist (List.take_sublist n l) h

/-- Specification of one aggregated bucket: `open` comes from a
timestamp-minimal row, `close` from a timestamp-maximal row, `high`/`low`
are the attained maximum/minimum, and `volume` is the sum. -/
theorem bucketAgg_spec (b : Int) (grp : List MinuteRow) (hne : grp ≠ []) :
    (∃ r ∈ grp, (∀ x ∈ grp, r.ts ≤ x.ts) ∧ (bucketAgg b grp).open_ = r.open_) ∧
    (∃ r ∈ grp, (∀ x ∈ grp, x.ts ≤ r.ts) ∧ (bucketAgg b grp).close = r.close) ∧
    (∀ x ∈ grp, x.high ≤ (bucketAgg b grp).high) ∧
    (∃ r ∈ grp, (bucketAgg b grp).high = r.high) ∧
    (∀ x ∈ grp, (bucketAgg b grp).low ≤ x.low) ∧
    (∃ r ∈ grp, (bucketAgg b grp).low = r.low) ∧
    (bucketAgg b grp).volume = (grp.map MinuteRow.volume).sum ∧
    (bucketAgg b grp).time = b := by
  refine ⟨?_, ?_, ?_, ?_, ?_, ?_, rfl, rfl⟩
  · obtain ⟨m, hm, hmin, hhead⟩ := insertionSort_head_min tsLe grp hne
    exact ⟨m, hm, hmin, by simp [bucketAgg, hhead]⟩
  · obtain ⟨m, hm, hmax, hhead⟩ := insertionSort_head_min tsGe grp hne
    exact ⟨m, hm, hmax, by simp [bucketAgg, hhead]⟩
  · have hmapne : grp.map MinuteRow.high ≠ [] := by
      simpa [List.map_eq_nil_iff] using hne
    obtain ⟨M, hM⟩ := WithBot.ne_bot_iff_exists.mp
      (List.maximum_ne_bot_of_ne_nil hmapne)
    obtain ⟨-, hle⟩ := List.maximum_eq_coe_iff.mp hM.symm
    intro x hx
    have : (bucketAgg b grp).high = M := by
      simp only [bucketAgg, ← hM, WithBot.unbot'_coe]
    rw [this]
    exact hle x.high (List.mem_map_of_mem MinuteRow.high hx)
  · have hmapne : grp.map MinuteRow.high ≠ [] := by
      simpa [List.map_eq_nil_iff] using hne
    obtain ⟨M, hM⟩ := WithBot.ne_bot_iff_exists.mp
      (List.maximum_ne_bot_of_ne_nil hmapne)
    obtain ⟨hmem, -⟩ := List.maximum_eq_coe_iff.mp hM.symm
    obtain ⟨r, hr, hrM⟩ := List.mem_map.mp hmem
    refine ⟨r, hr, ?_⟩
    rw [hrM]
    simp only [bucketAgg, ← hM, WithBot.unbot'_coe]
  · have hmapne : grp.map MinuteRow.low ≠ [] := by
      simpa [List.map_eq_nil_iff] using hne
    obtain ⟨M, hM⟩ := WithTop.ne_top_iff_exists.mp
      (List.minimum_ne_top_of_ne_nil hmapne)
    obtain ⟨-, hle⟩ := List.minimum_eq_coe_iff.mp hM.symm
    intro x hx
    have : (bucketAgg b grp).low = M := by
      simp only [bucketAgg, ← hM, WithTop.untop'_coe]
    rw [this]
    exact hle x.low (List.mem_map_of_mem MinuteRow.low hx)
  · have hmapne : grp.map MinuteRow.low ≠ [] := by
      simpa [List.map_eq_nil_iff] using hne
    obtain ⟨M, hM⟩ := WithTop.ne_top_iff_exists.mp
      (List.minimum_ne_top_of_ne_nil hmapne)
    obtain ⟨hmem, -⟩ := List.minimum_eq_coe_iff.mp hM.symm
    obtain ⟨r, hr, hrM⟩ := List.mem_map.mp hmem
    refine ⟨r, hr, ?_⟩
    rw [hrM]
    simp only [bucketAgg, ← hM, WithTop.untop'_coe]

/-! ## C1: zone penetration percentage -/

/-- C1: for a demand zone the computed penetration percentage equals
`max 0 ((bottom - price) / (top - bottom) * 100)` and for a supply zone
`max 0 ((price - top) / (top - bottom) * 100)`; the result is never
negative, is 0 for a demand zone when `price ≥ bottom`, and is 0 for a
supply zone when `price ≤ top`. -/
theorem penetration_pct_matches_formula (zoneTop zoneBottom currentPrice : ℚ)
    (h : zoneBottom < zoneTop) :
    penetrationPct "demand" zoneTop zoneBottom currentPrice =
      some (max 0 ((zoneBottom - currentPrice) / (zoneTop - zoneBottom) * 100)) ∧
    penetrationPct "supply" zoneTop zoneBottom currentPrice =
      some (max 0 ((currentPrice - zoneTop) / (zoneTop - zoneBottom) * 100)) ∧
    (∀ q, penetrationPct "demand" zoneTop zoneBottom currentPrice = some q → 0 ≤ q) ∧
    (∀ q, penetrationPct "supply" zoneTop zoneBottom currentPrice = some q → 0 ≤ q) ∧
    (zoneBottom ≤ currentPrice →
      penetrationPct "demand" zoneTop zoneBottom currentPrice = some 0) ∧
    (currentPrice ≤ zoneTop →
      penetrationPct "supply" zoneTop zoneBottom currentPrice = some 0) := by
  have hne : zoneTop - zoneBottom ≠ 0 := sub_ne_zero.mpr (ne_of_gt h)
  have hpos : (0 : ℚ) < zoneTop - zoneBottom := sub_pos.mpr h
  refine ⟨by simp [penetrationPct, hne], by simp [penetrationPct, hne], ?_, ?_, ?_, ?_⟩
  · intro q hq
    simp [penetrationPct, hne] at hq
    exact hq ▸ le_max_left 0 _
  · intro q hq
    simp [penetrationPct, hne] at hq
    exact hq ▸ le_max_left 0 _
  · intro hp
    have hdiv : (zoneBottom - currentPrice) / (zoneTop - zoneBottom) ≤ 0 :=
      div_nonpos_iff.mpr (Or.inr ⟨sub_nonpos.mpr hp, hpos.le⟩)
    have hmax : max 0 ((zoneBottom - currentPrice) / (zoneTop - zoneBottom) * 100) = 0 :=
      max_eq_left (by linarith)
    simp [penetrationPct, hne, hmax]
  · intro hp
    have hdiv : (currentPrice - zoneTop) / (zoneTop - zoneBottom) ≤ 0 :=
      div_nonpos_iff.mpr (Or.inr ⟨sub_nonpos.mpr hp, hpos.le⟩)
    have hmax : max 0 ((currentPrice - zoneTop) / (zoneTop - zoneBottom) * 100) = 0 :=
      max_eq_left (by linarith)
    simp [penetrationPct, hne, hmax]

/-- Witness for C1 at the spec's worked example: zone 149.00—150.50,
current price 149.25, demand zone: the formula clamps to 0. -/
theorem penetration_pct_matches_formula_witness :
    (149 : ℚ) < 301 / 2 ∧
    penetrationPct "demand" (301 / 2) 149 (597 / 4) = some 0 :=
  ⟨by norm_num,
    (penetration_pct_matches_formula (301 / 2) 149 (597 / 4)
        (by norm_num)).2.2.2.2.1 (by norm_num)⟩

/-! ## C10: definedness of the penetration computation -/

/-- C10 counterexample: the zone `top = bottom = 100` satisfies the
documented invariant `top ≥ bottom`, yet the penetration computation
divides by `zone_range = 0` (a `ZeroDivisionError`, modelled `none`),
so the invariant `top ≥ bottom` does not make the computation defined. -/
theorem penetration_degenerate_zone_counterexample :
    (100 : ℚ) ≥ 100 ∧ penetrationPct "demand" 100 100 99 = none :=
  ⟨le_refl 100, by norm_num [penetrationPct]⟩

/-- C10 (amended): for every zone with `zone_top` strictly above
`zone_bottom` the penetration computation is defined (no division by
zero, for either zone type). -/
theorem penetration_pct_defined (zoneType : String)
    (zoneTop zoneBottom currentPrice : ℚ) (h : zoneBottom < zoneTop) :
    (penetrationPct zoneType zoneTop zoneBottom currentPrice).isSome = true := by
  have hne : zoneTop - zoneBottom ≠ 0 := sub_ne_zero.mpr (ne_of_gt h)
  by_cases ht : zoneType = "demand" <;> simp [penetrationPct, hne, ht]

/-- Witness for C10 (amended) on a concrete nondegenerate supply zone. -/
theorem penetration_pct_defined_witness :
    (149 : ℚ) < 301 / 2 ∧
    (penetrationPct "supply" (301 / 2) 149 148).isSome = true :=
  ⟨by norm_num, penetration_pct_defined "supply" (301 / 2) 149 148 (by norm_num)⟩

/-! ## C5: zone ranking and cap -/

/-- C5: every zone list returned by the zone fetch is sorted by zone score
descending, ties broken by start time descending, and has at most 30
entries (also on the unknown-timeframe path, which yields the empty list). -/
theorem fetch_zones_ranked_and_capped (rows : List ZoneRow)
    (tfLookup : String → Option Int) (sid : Int) (timeframe : String) :
    List.Sorted
      (fun a b : Zone => b.zoneScore < a.zoneScore ∨
        (a.zoneScore = b.zoneScore ∧ b.startTime ≤ a.startTime))
      (fetchZones rows tfLookup sid timeframe).1 ∧
    (fetchZones rows tfLookup sid timeframe).1.length ≤ 30 := by
  cases hl : tfLookup timeframe with
  | none => simp [fetchZones, hl]
  | some tfId =>
    have hs : List.Sorted zoneOrder (zonesQuery rows sid tfId) := by
      unfold zonesQuery
      exact sorted_take (List.sorted_insertionSort zoneOrder _) 30
    constructor
    · simp only [fetchZones, hl]
      exact List.Pairwise.map (zoneOfRow timeframe) (fun a b hab => hab) hs
    · simp only [fetchZones, hl, List.length_map]
      unfold zonesQuery
      exact List.length_take_le 30 _

/-! ## C6: volume-profile grouping, ranking and cap -/

/-- C6: every volume-profile list returned by the fetch is grouped by price
level (each price appears once, with the summed volume of all filtered rows
at that price), sorted by aggregated volume descending, and has at most 50
entries. -/
theorem fetch_volume_profile_grouped_ranked_capped (rows : List VPRow)
    (schema : String) (sid : Int) (s e : Int) :
    List.Sorted (fun a b : VPNode => b.dollarVolume ≤ a.dollarVolume)
      (fetchVolumeProfile rows schema sid s e) ∧
    (fetchVolumeProfile rows schema sid s e).length ≤ 50 ∧
    ((fetchVolumeProfile rows schema sid s e).map VPNode.price).Nodup ∧
    ∀ n ∈ fetchVolumeProfile rows schema sid s e,
      n.dollarVolume =
        (((rows.filter (vpFilter schema sid s e)).filter
            (fun r => decide (r.priceLevel = n.price))).map VPRow.volume).sum ∧
      n.price ∈ (rows.filter (vpFilter schema sid s e)).map VPRow.priceLevel := by
  set base := rows.filter (vpFilter schema sid s e) with hbase
  have hfetch : fetchVolumeProfile rows schema sid s e =
      (List.insertionSort vpOrder (vpAggregate base)).take 50 := rfl
  have hmapprice : (vpAggregate base).map VPNode.price =
      (base.map VPRow.priceLevel).dedup := by
    unfold vpAggregate
    rw [List.map_map]
    exact List.map_id'' (fun p => rfl) _
  refine ⟨?_, ?_, ?_, ?_⟩
  · rw [hfetch]
    exact sorted_take (List.sorted_insertionSort vpOrder _) 50
  · rw [hfetch]
    exact List.length_take_le 50 _
  · rw [hfetch, List.map_take]
    apply List.Nodup.sublist (List.take_sublist 50 _)
    have hperm : List.Perm
        (List.map VPNode.price (List.insertionSort vpOrder (vpAggregate base)))
        (List.map VPNode.price (vpAggregate base)) :=
      List.Perm.map VPNode.price (List.perm_insertionSort vpOrder _)
    rw [List.Perm.nodup_iff hperm, hmapprice]
    exact List.nodup_dedup _
  · intro n hn
    rw [hfetch] at hn
    have hn2 : n ∈ List.insertionSort vpOrder (vpAggregate base) :=
      (List.take_sublist 50 _).subset hn
    have hn3 : n ∈ vpAggregate base := (List.mem_insertionSort vpOrder).mp hn2
    simp only [vpAggregate, List.mem_map] at hn3
    obtain ⟨p, hp, rfl⟩ := hn3
    exact ⟨rfl, List.mem_dedup.mp hp⟩

/-! ## C2: candle data-source selection -/

/-- C2: the candle fetch queries the per-timeframe materialized view when it
exists; otherwise, for timeframes up to 15 minutes it stride-samples the
base minute table (raw rows whose minute-of-hour is divisible by the
timeframe, no aggregation), and for larger timeframes it bucket-aggregates
with open = first row in the bucket, high = max, low = min, close = last
row in the bucket, and volume = sum. -/
theorem fetch_candles_source_selection (db : StocksDb) (sid : Int) (s e : Int)
    (tf : Nat) :
    (matviewAvailable db tf = true →
      ∀ nm, matviewMap tf = some nm →
        fetchCandles db sid s e tf = matviewQuery ((db.matviews nm).getD []) sid s e) ∧
    (matviewAvailable db tf = false → tf ≤ 15 →
      fetchCandles db sid s e tf = strideQuery db.minuteRows sid s e tf ∧
      ∀ cd ∈ fetchCandles db sid s e tf, ∃ r ∈ db.minuteRows,
        r.symbolId = sid ∧ s ≤ r.ts ∧ r.ts ≤ e ∧
        minuteOfHour r.ts % (tf : Int) = 0 ∧ cd = candleOfMinuteRow r) ∧
    (matviewAvailable db tf = false → 15 < tf →
      fetchCandles db sid s e tf = bucketQuery db.minuteRows sid s e tf ∧
      ∀ cd ∈ fetchCandles db sid s e tf,
        bucketGroup db.minuteRows sid s e tf cd.time ≠ [] ∧
        (∃ r ∈ bucketGroup db.minuteRows sid s e tf cd.time,
          (∀ x ∈ bucketGroup db.minuteRows sid s e tf cd.time, r.ts ≤ x.ts) ∧
          cd.open_ = r.open_) ∧
        (∃ r ∈ bucketGroup db.minuteRows sid s e tf cd.time,
          (∀ x ∈ bucketGroup db.minuteRows sid s e tf cd.time, x.ts ≤ r.ts) ∧
          cd.close = r.close) ∧
        (∀ x ∈ bucketGroup db.minuteRows sid s e tf cd.time, x.high ≤ cd.high) ∧
        (∃ r ∈ bucketGroup db.minuteRows sid s e tf cd.time, cd.high = r.high) ∧
        (∀ x ∈ bucketGroup db.minuteRows sid s e tf cd.time, cd.low ≤ x.low) ∧
        (∃ r ∈ bucketGroup db.minuteRows sid s e tf cd.time, cd.low = r.low) ∧
        cd.volume =
          ((bucketGroup db.minuteRows sid s e tf cd.time).map MinuteRow.volume).sum) := by
  refine ⟨?_, ?_, ?_⟩
  · intro hav nm hnm
    cases hv : db.matviews nm with
    | none =>
      exfalso
      simp [matviewAvailable, hnm, hv] at hav
    | some mrows => simp [fetchCandles, hnm, hv]
  · intro hav htf
    have hfall : fetchCandles db sid s e tf = strideQuery db.minuteRows sid s e tf := by
      cases hm : matviewMap tf with
      | none => simp [fetchCandles, hm, fallbackQuery, htf]
      | some nm0 =>
        cases hv : db.matviews nm0 with
        | none => simp [fetchCandles, hm, hv, fallbackQuery, htf]
        | some mrows =>
          exfalso
          simp [matviewAvailable, hm, hv] at hav
    refine ⟨hfall, ?_⟩
    intro cd hcd
    rw [hfall] at hcd
    unfold strideQuery at hcd
    obtain ⟨r, hr, rfl⟩ := List.mem_map.mp hcd
    have hr2 := (List.mem_insertionSort tsLe).mp hr
    obtain ⟨hrmem, hcond⟩ := List.mem_filter.mp hr2
    simp only [inRangeB, Bool.and_eq_true, decide_eq_true_eq] at hcond
    exact ⟨r, hrmem, hcond.1.1.1, hcond.1.1.2, hcond.1.2, hcond.2, rfl⟩
  · intro hav htf
    have hfall : fetchCandles db sid s e tf = bucketQuery db.minuteRows sid s e tf := by
      have htf2 : ¬ tf ≤ 15 := Nat.not_le.mpr htf
      cases hm : matviewMap tf with
      | none => simp [fetchCandles, hm, fallbackQuery, htf2]
      | some nm0 =>
        cases hv : db.matviews nm0 with
        | none => simp [fetchCandles, hm, hv, fallbackQuery, htf2]
        | some mrows =>
          exfalso
          simp [matviewAvailable, hm, hv] at hav
    refine ⟨hfall, ?_⟩
    intro cd hcd
    rw [hfall] at hcd
    unfold bucketQuery at hcd
    obtain ⟨b, hb, rfl⟩ := List.mem_map.mp hcd
    have htime : (bucketAgg b (bucketGroup db.minuteRows sid s e tf b)).time = b := rfl
    rw [htime]
    have hbne : bucketGroup db.minuteRows sid s e tf b ≠ [] := by
      unfold bucketKeys at hb
      have hb2 := (List.mem_insertionSort (· ≤ ·)).mp hb
      have hb3 := List.mem_dedup.mp hb2
      obtain ⟨r, hr, hrb⟩ := List.mem_map.mp hb3
      have : r ∈ bucketGroup db.minuteRows sid s e tf b :=
        List.mem_filter.mpr ⟨hr, by simpa using hrb⟩
      exact List.ne_nil_of_mem this
    obtain ⟨h1, h2, h3, h4, h5, h6, h7, -⟩ :=
      bucketAgg_spec b (bucketGroup db.minuteRows sid s e tf b) hbne
    exact ⟨hbne, h1, h2, h3, h4, h5, h6, h7⟩

/-- Concrete database for the C2 witness: the 30-minute materialized view
exists and holds one row. -/
def dbC2 : StocksDb :=
  { matviews := fun nm =>
      if nm = "candles_30m" then some [⟨7, 1800, 10, 12, 9, 11, 100⟩] else none
    minuteRows := [] }

/-- Witness for C2 on the materialized-view fast path. -/
theorem fetch_candles_source_selection_witness :
    matviewAvailable dbC2 30 = true ∧
    fetchCandles dbC2 7 0 1000000 30 =
      matviewQuery ((dbC2.matviews "candles_30m").getD []) 7 0 1000000 :=
  ⟨by decide,
    (fetch_candles_source_selection dbC2 7 0 1000000 30).1 (by decide)
      "candles_30m" (by decide)⟩

/-! ## C3: start-time padding policy -/

/-- Concrete database for the C3 counterexample: the fetched timeframe has
no materialized view, and the minute table holds one row one hour before
the dashboard's requested start. -/
def dbC3 : StocksDb :=
  { matviews := fun _ => none
    minuteRows := [⟨1, 85964400, 10, 12, 9, 11, 100⟩] }

/-- C3 counterexample: the dashboard candle fetch is also a candle fetch,
and for it the claim fails.  With end = 86400000 and the 2min timeframe's
5-day lookback the requested start is 85968000; the span covers more than
one calendar day, so the claim requires the effective query start to be
padded back by 10% of the span (to 85924800).  The database row at
85964400 lies inside that padded window, yet the fetch — which queries
from the requested start itself, with no padding — returns no candles. -/
theorem dashboard_no_padding_counterexample :
    dashboardStartDate 86400000 30 "2min" = 85968000 ∧
    dayIndex (85968000 : ℚ) ≠ dayIndex (86400000 : ℚ) ∧
    (85968000 : ℚ) - ((86400000 : ℚ) - 85968000) * (1 / 10) ≤ 85964400 ∧
    fetchCandles dbC3 1 85968000 86400000 2 = [] := by
  refine ⟨by decide, ?_, by norm_num, by decide⟩
  norm_num [dayIndex]

/-- C3 (amended): the start-time policy belongs to the zone-alert chart
fetch only: there, a single-calendar-day request clamps the start to the
market-open time-of-day 09:30:00 on the same day, and a multi-day request
pads the start backward by exactly 10% of the span.  The dashboard data
fetch instead queries from exactly end − per-timeframe-lookback, with no
clamping or padding. -/
theorem chart_padding_policy (s e : ℚ) (endDate : Int) (lookbackDefault : Nat)
    (tfName : String) :
    (dayIndex s = dayIndex e →
      chartPaddedStart s e = marketOpenClamp s ∧
      dayIndex (marketOpenClamp s) = dayIndex s ∧
      marketOpenClamp s = dayIndex s * 86400 + 34200) ∧
    (dayIndex s ≠ dayIndex e →
      chartPaddedStart s e = s - (e - s) * (1 / 10)) ∧
    dashboardStartDate endDate lookbackDefault tfName =
      endDate - ((lookbackDaysMap tfName).getD lookbackDefault : Int) * 86400 := by
  refine ⟨?_, ?_, rfl⟩
  · intro h
    refine ⟨by simp [chartPaddedStart, h], ?_, rfl⟩
    unfold marketOpenClamp dayIndex
    rw [show ((⌊s / 86400⌋ : ℚ) * 86400 + 34200) / 86400 =
        (⌊s / 86400⌋ : ℚ) + 34200 / 86400 by ring]
    rw [Int.floor_int_add]
    norm_num
  · intro h
    simp [chartPaddedStart, h]

/-- Witness for C3 (amended) on a concrete single-day request
(both timestamps on day 100; the clamp lands at 8674200 = day start
8640000 plus 34200 seconds). -/
theorem chart_padding_policy_witness :
    dayIndex (8670000 : ℚ) = dayIndex (8680000 : ℚ) ∧
    chartPaddedStart 8670000 8680000 = marketOpenClamp 8670000 ∧
    dayIndex (marketOpenClamp (8670000 : ℚ)) = dayIndex (8670000 : ℚ) := by
  have h : dayIndex (8670000 : ℚ) = dayIndex (8680000 : ℚ) := by norm_num [dayIndex]
  obtain ⟨h1, h2, -⟩ := (chart_padding_policy 8670000 8680000 0 0 "2min").1 h
  exact ⟨h, h1, h2⟩

/-! ## C4: per-timeframe degradation of the dashboard -/

/-- Length of the complement filter. -/
theorem filter_not_length {α : Type} (p : α → Bool) (l : List α) :
    (l.filter (fun a => ! p a)).length = l.length - (l.filter p).length := by
  induction l with
  | nil => simp
  | cons a l ih =>
    have hle := List.length_filter_le p l
    cases hp : p a
    · simp [List.filter_cons, hp, ih]
      omega
    · simp [List.filter_cons, hp, ih]

/-- Counting lemma for the per-timeframe loop: when every successful fetch
returns non-placeholder data, placeholder buckets correspond exactly to
failing timeframes, populated buckets to succeeding ones. -/
theorem buildTimeframes_counts (tfs : List String)
    (fetchTf : String → Except Unit TfData)
    (hpop : ∀ tf ∈ tfs, ∀ d, fetchTf tf = Except.ok d → d ≠ emptyTfData) :
    ((buildTimeframes tfs fetchTf).filter
        (fun p => decide (p.2 = emptyTfData))).length =
      (tfs.filter (fun tf => isErr (fetchTf tf))).length ∧
    ((buildTimeframes tfs fetchTf).filter
        (fun p => decide (¬ p.2 = emptyTfData))).length =
      (tfs.filter (fun tf => ! isErr (fetchTf tf))).length := by
  induction tfs with
  | nil => simp [buildTimeframes]
  | cons tf rest ih =>
    obtain ⟨ih1, ih2⟩ := ih (fun t ht => hpop t (List.mem_cons_of_mem tf ht))
    cases hf : fetchTf tf with
    | error u =>
      constructor
      · simpa [buildTimeframes, List.filter_cons, hf, isErr] using ih1
      · simpa [buildTimeframes, List.filter_cons, hf, isErr] using ih2
    | ok d =>
      have hd : ¬ d = emptyTfData := hpop tf (List.mem_cons_self tf rest) d hf
      constructor
      · simpa [buildTimeframes, List.filter_cons, hf, isErr, hd] using ih1
      · simpa [buildTimeframes, List.filter_cons, hf, isErr, hd] using ih2

/-- C4: when the fetch for exactly one of the configured timeframes throws
and every other fetch returns populated data, the dashboard fetch still
succeeds and yields one bucket per timeframe, of which exactly one is the
empty placeholder and the other N − 1 are populated. -/
theorem dashboard_degrades_per_timeframe (sid : Int) (tfs : List String)
    (fetchTf : String → Except Unit TfData)
    (hone : (tfs.filter (fun tf => isErr (fetchTf tf))).length = 1)
    (hpop : ∀ tf ∈ tfs, ∀ d, fetchTf tf = Except.ok d → d ≠ emptyTfData) :
    fetchDashboardData (some sid) tfs fetchTf = some (buildTimeframes tfs fetchTf) ∧
    (buildTimeframes tfs fetchTf).length = tfs.length ∧
    ((buildTimeframes tfs fetchTf).filter
        (fun p => decide (p.2 = emptyTfData))).length = 1 ∧
    ((buildTimeframes tfs fetchTf).filter
        (fun p => decide (¬ p.2 = emptyTfData))).length = tfs.length - 1 := by
  obtain ⟨h1, h2⟩ := buildTimeframes_counts tfs fetchTf hpop
  refine ⟨rfl, by simp [buildTimeframes], h1.trans hone, ?_⟩
  rw [h2, filter_not_length, hone]

/-- One populated timeframe bucket for the C4 witness. -/
def tfDataC4 : TfData := ⟨[⟨0, 1, 1, 1, 1, 1⟩], [], []⟩

/-- Fetch function for the C4 witness: the 2min timeframe throws, every
other timeframe succeeds with populated data. -/
def fetchC4 : String → Except Unit TfData :=
  fun tf => if tf = "2min" then Except.error () else Except.ok tfDataC4

/-- Witness for C4 with two timeframes of which the first one throws. -/
theorem dashboard_degrades_per_timeframe_witness :
    fetchDashboardData (some 1) ["2min", "3min"] fetchC4 =
      some (buildTimeframes ["2min", "3min"] fetchC4) ∧
    (buildTimeframes ["2min", "3min"] fetchC4).length = 2 ∧
    ((buildTimeframes ["2min", "3min"] fetchC4).filter
        (fun p => decide (p.2 = emptyTfData))).length = 1 ∧
    ((buildTimeframes ["2min", "3min"] fetchC4).filter
        (fun p => decide (¬ p.2 = emptyTfData))).length = 2 - 1 := by
  have hpop : ∀ tf ∈ ["2min", "3min"], ∀ d, fetchC4 tf = Except.ok d →
      d ≠ emptyTfData := by
    intro tf htf d hd
    simp only [List.mem_cons, List.mem_singleton] at htf
    rcases htf with rfl | htf
    · simp [fetchC4] at hd
    · rcases htf with rfl | htf
      · simp [fetchC4] at hd
        rw [← hd]
        decide
      · simp at htf
  exact dashboard_degrades_per_timeframe 1 ["2min", "3min"] fetchC4 (by decide) hpop

/-! ## C7: unknown symbol / unknown timeframe label -/

/-- C7: a request naming an unknown symbol or an unknown timeframe label
returns an empty result with a warning logged and without raising: the
chart-data fetch returns no candles and warns, the zone fetch returns the
empty list and warns, zone-alert chart generation returns no HTML and no
thumbnail, and the dashboard fetch returns no data — all as ordinary
return values. -/
theorem unknown_symbol_or_timeframe_empty_and_warned :
    (∀ db tf (s e : ℚ), fetchChartData db none tf s e = ([], ["warning"])) ∧
    (∀ rows (tfLookup : String → Option Int) (sid : Int) (label : String),
      tfLookup label = none →
      fetchZones rows tfLookup sid label = ([], ["warning"])) ∧
    (∀ db kal (sym zt : String) (ztm ctf : Nat) (zfa cts : ℚ) (nowStr : String),
      generateZoneAlertChart db kal none sym zt ztm ctf zfa cts nowStr = (none, none)) ∧
    (∀ (tfs : List String) (fetchTf : String → Except Unit TfData),
      fetchDashboardData none tfs fetchTf = none) := by
  refine ⟨fun db tf s e => rfl, ?_, ?_, fun tfs fetchTf => rfl⟩
  · intro rows tfLookup sid label h
    simp [fetchZones, h]
  · intro db kal sym zt ztm ctf zfa cts nowStr
    simp [generateZoneAlertChart, fetchChartData]

/-- Witness for C7: unknown timeframe label "77min" and an unknown symbol
on a concrete empty database. -/
theorem unknown_symbol_or_timeframe_empty_and_warned_witness :
    fetchZones [] (fun _ => none) 1 "77min" = ([], ["warning"]) ∧
    fetchChartData ⟨fun _ => [], false⟩ none 5 0 100 = ([], ["warning"]) :=
  ⟨unknown_symbol_or_timeframe_empty_and_warned.2.1 [] (fun _ => none) 1 "77min" rfl,
    unknown_symbol_or_timeframe_empty_and_warned.1 ⟨fun _ => [], false⟩ 5 0 100⟩

/-! ## C8: connection/cursor release -/

/-- C8 evidence: in a dashboard fetch over the timeframes 2min and 3min in
which the 2min fetch throws, two connections are acquired (ids 0 and 2) but
only the replacement connection (id 2) is ever closed: the per-timeframe
failure handler closes the old cursor and opens a fresh connection without
closing the old one, so connection 0 is still open when the call returns. -/
theorem connection_leak_on_timeframe_failure :
    acquiredConns (fetchDashboardEvents true ["2min", "3min"]
      (fun tf => tf == "2min")) = [0, 2] ∧
    closedConns (fetchDashboardEvents true ["2min", "3min"]
      (fun tf => tf == "2min")) = [2] ∧
    0 ∉ closedConns (fetchDashboardEvents true ["2min", "3min"]
      (fun tf => tf == "2min")) := by
  refine ⟨by decide, by decide, by decide⟩

/-! ## C9: best-effort thumbnail -/

/-- C9 evidence: with the rasterizing dependency importable the thumbnail
function returns the derived .png path, but its effect trace contains no
file write at all (it only reads the HTML and logs) — no raster image file
is produced, contradicting its docstring and success log; with the
dependency unavailable it logs the failure and returns `none` instead of
raising. -/
theorem thumbnail_writes_no_file :
    (generatePngThumbnail true "AAPL_demand_30min_20250115_143000.html").1 =
      some (pngPathOf "AAPL_demand_30min_20250115_143000.html") ∧
    (∀ p, FsEffect.writeFile p ∉
      (generatePngThumbnail true "AAPL_demand_30min_20250115_143000.html").2) ∧
    generatePngThumbnail false "AAPL_demand_30min_20250115_143000.html" =
      (none, [FsEffect.logError, FsEffect.logInfo]) := by
  refine ⟨rfl, ?_, rfl⟩
  intro p
  simp [generatePngThumbnail]

end Helwa
